import Mathlib

/-!
Verification of the resource caching layer of the quick-toshl client
(`ToshlClient` in the source): an in-memory cache store keyed by fixed
per-resource strings, fronted by a conditional-fetch orchestrator
(`fetchWithCache`) that issues HTTP conditional requests and falls back to
cached data on failure within a 14-day staleness ceiling.

The embedding is shallow: the transport (axios) is an injected function from
query parameters and conditional headers to a transport outcome; a promise
rejection is `TransportResult.failure` carrying the response status when one
exists (axios rejects on every non-2xx status, including 304); `Date.now()` is
an explicit `now : Nat` parameter (milliseconds); the `Map` cache field is an
association list with `Map.set` replace-in-place semantics.
-/

namespace QuickToshl

/-- Cache TTL in milliseconds (14 days), from the source constant
`CACHE_TTL = 14 * 24 * 60 * 60 * 1000`. -/
def CACHE_TTL : Nat := 14 * 24 * 60 * 60 * 1000

/-- One cache entry, mirroring `CacheEntry<T>` in the source: the payload,
the `Date.now()` stamp written by `setCache`, and the optional HTTP
validators. The spec calls the timestamp field `fetchedAt`. -/
structure CacheEntry (τ : Type) where
  data : τ
  timestamp : Nat
  etag : Option String
  lastModified : Option String
deriving Repr, DecidableEq

/-- The cache store `Map<string, CacheEntry<unknown>>`, modelled as an
association list in which every key occurs at most once (maintained by
`setStore`). -/
abbrev Store (τ : Type) : Type := List (String × CacheEntry τ)

/-- Lookup by key: `getCacheEntry`, via `Map.get`. -/
def lookupStore (s : Store τ) (k : String) : Option (CacheEntry τ) :=
  match s with
  | [] => none
  | (k2, e) :: rest => if k2 = k then some e else lookupStore rest k

/-- Replace the binding for `k` in place, or append a fresh one (`Map.set`). -/
def setStore (s : Store τ) (k : String) (e : CacheEntry τ) : Store τ :=
  match s with
  | [] => [(k, e)]
  | (k2, e2) :: rest => if k2 = k then (k, e) :: rest else (k2, e2) :: setStore rest k e

/-- Store an entry stamped
with the current time. -/
def setCache (s : Store τ) (now : Nat) (k : String) (data : τ)
    (etag lastModified : Option String) : Store τ :=
  setStore s k { data := data, timestamp := now, etag := etag, lastModified := lastModified }

/-- Empty the table (`Map.clear()`). Called only from the constructor when
the force-refresh preference is set. -/
def clearStore (_ : Store τ) : Store τ := []

/-- Constructor-time cache state: the `Map` field initializer produces an
empty map, which the constructor clears (still empty) when
`forceRefreshCache` is set. -/
def initStore (forceRefreshCache : Bool) : Store τ :=
  if forceRefreshCache then clearStore ([] : Store τ) else []

/-- The conditional request headers `fetchWithCache` builds from the cached
entry: `If-None-Match` from `cached?.etag`, `If-Modified-Since` from
`cached?.lastModified`. -/
structure Headers where
  ifNoneMatch : Option String
  ifModifiedSince : Option String
deriving Repr, DecidableEq

/-- Header construction from the (possibly absent) cached entry. -/
def condHeaders (cached : Option (CacheEntry τ)) : Headers :=
  { ifNoneMatch := cached.bind (fun c => c.etag)
    ifModifiedSince := cached.bind (fun c => c.lastModified) }

/-- One transport outcome: axios resolves with a body plus the `etag` and
`last-modified` response headers on a 2xx status, and rejects otherwise; a
rejected request carries `error.response?.status` when a response exists
(e.g. `some 304`, `some 500`) and `none` on a network error. -/
inductive TransportResult (ρ : Type) where
  | success (body : ρ) (etag : Option String) (lastModified : Option String)
  | failure (status : Option Nat)
deriving Repr, DecidableEq

/-- An error reaching the catch block of `fetchWithCache`: either the
transport rejection, or an exception thrown by `transform` (which has no
`response.status`). -/
inductive FetchError (ε : Type) where
  | transport (status : Option Nat)
  | transformThrew (e : ε)
deriving Repr, DecidableEq

/-- The status `error.response?.status` as read in the catch block. -/
def errStatus : FetchError ε → Option Nat
  | .transport s => s
  | .transformThrew _ => none

/-- The observable outcome of one `fetchWithCache` call: the value returned
or error thrown, the cache store afterwards, and the transport requests
issued during the call (each recorded by its conditional headers). -/
structure FetchOutcome (ε τ : Type) where
  result : Except (FetchError ε) τ
  store : Store τ
  requests : List Headers
deriving Repr

/-- The catch block of `fetchWithCache`: first the `status === 304 && cached`
branch (refresh the timestamp, return cached data), then the TTL fallback
`cached && Date.now() - cached.timestamp < CACHE_TTL` (return cached data,
no write), else rethrow. -/
def fetchCatch (now : Nat) (store : Store τ) (cacheKey : String)
    (cached : Option (CacheEntry τ)) (headers : Headers) (err : FetchError ε) :
    FetchOutcome ε τ :=
  match cached with
  | some c =>
      if errStatus err = some 304 then
        { result := Except.ok c.data
          store := setCache store now cacheKey c.data c.etag c.lastModified
          requests := [headers] }
      else if now - c.timestamp < CACHE_TTL then
        { result := Except.ok c.data, store := store, requests := [headers] }
      else
        { result := Except.error err, store := store, requests := [headers] }
  | none => { result := Except.error err, store := store, requests := [headers] }

/-- The orchestrator `fetchWithCache(cacheKey, endpoint, params, transform)`. The endpoint is
folded into the injected `transport`; `params` has an abstract type `π`
passed through to the transport untouched; `transform` is total in the
source only if the payload matches, so it is modelled as returning
`Except ε τ` and every call site instantiates it. The source binds
`lookupStore store cacheKey` once as the local `cached`; it is repeated
here verbatim in place of that local. -/
def fetchWithCache (now : Nat) (store : Store τ) (cacheKey : String)
    (params : π) (transport : π → Headers → TransportResult ρ)
    (transform : ρ → Except ε τ) : FetchOutcome ε τ :=
  match transport params (condHeaders (lookupStore store cacheKey)) with
  | .success body etag lastModified =>
      match transform body with
      | .ok data =>
          { result := Except.ok data
            store := setCache store now cacheKey data etag lastModified
            requests := [condHeaders (lookupStore store cacheKey)] }
      | .error e =>
          fetchCatch now store cacheKey (lookupStore store cacheKey)
            (condHeaders (lookupStore store cacheKey)) (FetchError.transformThrew e)
  | .failure status =>
      fetchCatch now store cacheKey (lookupStore store cacheKey)
        (condHeaders (lookupStore store cacheKey)) (FetchError.transport status)

/-- The paging query parameters of the reference-data getters
(`{ page?: number; per_page?: number }`). -/
structure PageParams where
  page : Option Nat
  per_page : Option Nat
deriving Repr, DecidableEq

/-- A category as consulted by the cached transform (only the `deleted`
flag is read; `!c.deleted` keeps entries whose flag is not set). -/
structure Category where
  id : String
  deleted : Bool
deriving Repr, DecidableEq

/-- A tag as consulted by the cached transform (only `deleted` is read). -/
structure Tag where
  id : String
  deleted : Bool
deriving Repr, DecidableEq

/-- An account as consulted by the cached transform (only `order` is read,
by the ascending sort comparator `a.order - b.order`). -/
structure Account where
  id : String
  order : Nat
deriving Repr, DecidableEq

/-- A currency record produced by the currencies transform: the map key
folded in as the `code` field next to the remaining details. -/
structure Currency (δ : Type) where
  code : String
  details : δ
deriving Repr, DecidableEq

/-- Getter `getCategories`: `fetchWithCache("categories", "/categories", params,
data => data.filter(c => !c.deleted))`. The surrounding try/catch only logs
and rethrows, so it is the identity on the outcome. -/
def getCategories (now : Nat) (store : Store (List Category)) (params : PageParams)
    (transport : PageParams → Headers → TransportResult (List Category)) :
    FetchOutcome Unit (List Category) :=
  fetchWithCache now store "categories" params transport
    (fun data => Except.ok (data.filter (fun c => !c.deleted)))

/-- Getter `getTags`: `fetchWithCache("tags", "/tags", params,
data => data.filter(t => !t.deleted))`; try/catch logs and rethrows. -/
def getTags (now : Nat) (store : Store (List Tag)) (params : PageParams)
    (transport : PageParams → Headers → TransportResult (List Tag)) :
    FetchOutcome Unit (List Tag) :=
  fetchWithCache now store "tags" params transport
    (fun data => Except.ok (data.filter (fun t => !t.deleted)))

/-- Getter `getAccounts`: `fetchWithCache("accounts", "/accounts", params,
data => data.sort((a, b) => a.order - b.order))`; the JS sort is stable and
ascending on `order`; try/catch logs and rethrows. -/
def getAccounts (now : Nat) (store : Store (List Account)) (params : PageParams)
    (transport : PageParams → Headers → TransportResult (List Account)) :
    FetchOutcome Unit (List Account) :=
  fetchWithCache now store "accounts" params transport
    (fun data => Except.ok (data.mergeSort (fun a b => a.order ≤ b.order)))

/-- Getter `getCurrencies`: `fetchWithCache("currencies", "/currencies", {},
data => Object.entries(data).map(([code, details]) => ({...details, code})))`;
the raw payload is a keyed map, modelled as an association list in entry
order; try/catch logs and rethrows. -/
def getCurrencies (now : Nat) (store : Store (List (Currency δ)))
    (transport : Unit → Headers → TransportResult (List (String × δ))) :
    FetchOutcome Unit (List (Currency δ)) :=
  fetchWithCache now store "currencies" () transport
    (fun data => Except.ok (data.map (fun p => { code := p.1, details := p.2 })))

/-- The `me?.currency?.main` chain of `getDefaultCurrency`. -/
structure MeCurrency where
  main : Option String
deriving Repr, DecidableEq

/-- The `/me` payload as consulted by `getDefaultCurrency`. -/
structure Me where
  currency : Option MeCurrency
deriving Repr, DecidableEq

/-- The JS or-else `me?.currency?.main || "USD"`, under which a missing
chain link and the empty string are both falsy. -/
def mainCurrencyOr (me : Option Me) : String :=
  match (me.bind (fun m => m.currency)).bind (fun c => c.main) with
  | some s => if s = "" then "USD" else s
  | none => "USD"

/-- The observable outcome of one `getDefaultCurrency` call: the returned
string (this operation never throws), the store afterwards, and how many
live transport requests were issued. -/
structure CurrencyOutcome where
  result : String
  store : Store String
  requestCount : Nat
deriving Repr, DecidableEq

/-- Getter `getDefaultCurrency`: returns the cached value immediately when an entry
exists (no request, no age check); otherwise issues the `/me` request
(`getMe` logs and rethrows, hence is the transport itself), caches and
returns `me?.currency?.main || "USD"` on success, and returns the `"USD"`
fallback on failure without caching. -/
def getDefaultCurrency (now : Nat) (store : Store String)
    (transportMe : TransportResult (Option Me)) : CurrencyOutcome :=
  match lookupStore store "defaultCurrency" with
  | some c => { result := c.data, store := store, requestCount := 0 }
  | none =>
      match transportMe with
      | .success me _ _ =>
          { result := mainCurrencyOr me
            store := setCache store now "defaultCurrency" (mainCurrencyOr me) none none
            requestCount := 1 }
      | .failure _ => { result := "USD", store := store, requestCount := 1 }

/-- A concrete `Nat`-payload cache entry, used to instantiate the general
theorems on concrete inputs. -/
def natEntry (d ts : Nat) (etag lastModified : Option String) : CacheEntry Nat :=
  { data := d, timestamp := ts, etag := etag, lastModified := lastModified }

/-- A concrete one-entry store fixture: key `"k"`, payload `5`, stamped at
time `2` with validator `"v1"`. -/
def natStore1 : Store Nat := [("k", natEntry 5 2 (some "v1") none)]

/-- A concrete default-currency cache entry stamped at time `0`. -/
def currencyEntry : CacheEntry String :=
  { data := "EUR", timestamp := 0, etag := none, lastModified := none }

/-- A store holding only the `"defaultCurrency"` entry. -/
def currencyStore1 : Store String := [("defaultCurrency", currencyEntry)]

theorem lookup_setStore_self (s : Store τ) (k : String) (e : CacheEntry τ) :
    lookupStore (setStore s k e) k = some e := by
  induction s with
  | nil => simp [setStore, lookupStore]
  | cons p rest ih =>
      obtain ⟨k2, e2⟩ := p
      by_cases h : k2 = k
      · subst h
        simp [setStore, lookupStore]
      · simp [setStore, lookupStore, h, ih]

theorem lookup_setStore_ne (s : Store τ) (k : String) (e : CacheEntry τ)
    (k2 : String) (hk : k2 ≠ k) :
    lookupStore (setStore s k e) k2 = lookupStore s k2 := by
  induction s with
  | nil => simp [setStore, lookupStore, Ne.symm hk]
  | cons p rest ih =>
      obtain ⟨k3, e3⟩ := p
      by_cases h : k3 = k
      · subst h
        simp [setStore, lookupStore, Ne.symm hk]
      · simp [setStore, lookupStore, h, ih]

theorem isSome_lookup_setStore (s : Store τ) (k : String) (e : CacheEntry τ)
    (k2 : String) (h : (lookupStore s k2).isSome) :
    (lookupStore (setStore s k e) k2).isSome := by
  by_cases hk : k2 = k
  · subst hk
    simp [lookup_setStore_self]
  · rw [lookup_setStore_ne s k e k2 hk]
    exact h

/-- C1: if a fetch fails with anything other than a not-modified response,
then when a cache entry exists whose age `now - fetchedAt` is strictly below
14 days the call returns that entry's data with no error, and otherwise
(entry absent or at least 14 days old) the call propagates the transport
failure unchanged and leaves the cache store exactly as it was. -/
theorem C1_failure_fallback_or_propagates
    {τ ρ π ε : Type} (now : Nat) (store : Store τ) (key : String) (params : π)
    (transport : π → Headers → TransportResult ρ) (transform : ρ → Except ε τ)
    (status : Option Nat)
    (hfail : transport params (condHeaders (lookupStore store key)) =
      TransportResult.failure status)
    (h304 : status ≠ some 304) :
    (∀ c, lookupStore store key = some c →
        (now - c.timestamp < CACHE_TTL →
          (fetchWithCache now store key params transport transform).result =
            Except.ok c.data) ∧
        (CACHE_TTL ≤ now - c.timestamp →
          (fetchWithCache now store key params transport transform).result =
            Except.error (FetchError.transport status) ∧
          (fetchWithCache now store key params transport transform).store = store)) ∧
    (lookupStore store key = none →
        (fetchWithCache now store key params transport transform).result =
          Except.error (FetchError.transport status) ∧
        (fetchWithCache now store key params transport transform).store = store) := by
  constructor
  · intro c hc
    constructor
    · intro hfresh
      simp only [fetchWithCache, hfail]
      simp [fetchCatch, hc, errStatus, h304, hfresh]
    · intro hstale
      have hnf : ¬ (now - c.timestamp < CACHE_TTL) := not_lt.mpr hstale
      simp only [fetchWithCache, hfail]
      simp [fetchCatch, hc, errStatus, h304, hnf]
  · intro hc
    simp only [fetchWithCache, hfail]
    simp [fetchCatch, hc]

theorem C1_failure_fallback_or_propagates_witness :
    (fetchWithCache 5 ([] : Store Nat) "k" () (fun _ _ => TransportResult.failure (some 500))
        (fun (r : Nat) => (Except.ok r : Except Unit Nat))).result =
      Except.error (FetchError.transport (some 500)) ∧
    (fetchWithCache 5 ([] : Store Nat) "k" () (fun _ _ => TransportResult.failure (some 500))
        (fun (r : Nat) => (Except.ok r : Except Unit Nat))).store = [] :=
  (C1_failure_fallback_or_propagates 5 [] "k" ()
    (fun _ _ => TransportResult.failure (some 500))
    (fun r => Except.ok r) (some 500) rfl (by decide)).2 rfl

/-- C2: on a success response with new content, the call applies `transform`
to the body, stores the transformed result under the key together with the
etag and last-modified response headers, returns the transformed result,
and afterwards a lookup of the key finds an entry whose data equals the
transformed payload. -/
theorem C2_success_stores_transformed
    {τ ρ π ε : Type} (now : Nat) (store : Store τ) (key : String) (params : π)
    (transport : π → Headers → TransportResult ρ) (transform : ρ → Except ε τ)
    (body : ρ) (etag lastModified : Option String) (d : τ)
    (hresp : transport params (condHeaders (lookupStore store key)) =
      TransportResult.success body etag lastModified)
    (htrans : transform body = Except.ok d) :
    (fetchWithCache now store key params transport transform).result = Except.ok d ∧
    (fetchWithCache now store key params transport transform).store =
      setCache store now key d etag lastModified ∧
    lookupStore (fetchWithCache now store key params transport transform).store key =
      some { data := d, timestamp := now, etag := etag, lastModified := lastModified } := by
  refine ⟨?_, ?_, ?_⟩ <;>
    · simp only [fetchWithCache, hresp]
      simp [htrans, setCache, lookup_setStore_self]

theorem C2_success_stores_transformed_witness :
    (fetchWithCache 7 ([] : Store Nat) "k" ()
        (fun _ _ => TransportResult.success 3 (some "v1") none)
        (fun (r : Nat) => (Except.ok (r + 1) : Except Unit Nat))).result =
      Except.ok 4 ∧
    lookupStore (fetchWithCache 7 ([] : Store Nat) "k" ()
        (fun _ _ => TransportResult.success 3 (some "v1") none)
        (fun (r : Nat) => (Except.ok (r + 1) : Except Unit Nat))).store "k" =
      some { data := 4, timestamp := 7, etag := some "v1", lastModified := none } := by
  have h := C2_success_stores_transformed 7 ([] : Store Nat) "k" ()
    (fun _ _ => TransportResult.success 3 (some "v1") none)
    (fun (r : Nat) => (Except.ok (r + 1) : Except Unit Nat)) 3 (some "v1") none 4 rfl rfl
  exact ⟨h.1, h.2.2⟩

/-- C3: on a not-modified response for a key with an existing entry, the
call returns the previously cached data, and afterwards the entry's data
and validators are identical by value to their old values while its
timestamp (`fetchedAt`) is updated to the current, later time. -/
theorem C3_not_modified_refreshes_timestamp
    {τ ρ π ε : Type} (now : Nat) (store : Store τ) (key : String) (params : π)
    (transport : π → Headers → TransportResult ρ) (transform : ρ → Except ε τ)
    (c : CacheEntry τ)
    (hc : lookupStore store key = some c)
    (hresp : transport params (condHeaders (lookupStore store key)) =
      TransportResult.failure (some 304))
    (hlt : c.timestamp < now) :
    (fetchWithCache now store key params transport transform).result =
      Except.ok c.data ∧
    ∃ e, lookupStore (fetchWithCache now store key params transport transform).store key
        = some e ∧
      e.data = c.data ∧ e.etag = c.etag ∧ e.lastModified = c.lastModified ∧
      e.timestamp = now ∧ c.timestamp < e.timestamp := by
  constructor
  · simp only [fetchWithCache, hresp]
    simp [fetchCatch, hc, errStatus]
  · refine ⟨CacheEntry.mk c.data now c.etag c.lastModified, ?_, rfl, rfl, rfl, rfl, hlt⟩
    simp only [fetchWithCache, hresp]
    simp [fetchCatch, hc, errStatus, setCache, lookup_setStore_self]

theorem C3_not_modified_refreshes_timestamp_witness :
    (fetchWithCache 9 natStore1 "k" ()
        (fun _ _ => TransportResult.failure (some 304))
        (fun (r : Nat) => (Except.ok r : Except Unit Nat))).result =
      Except.ok 5 ∧
    ∃ e, lookupStore (fetchWithCache 9 natStore1 "k" ()
        (fun _ _ => TransportResult.failure (some 304))
        (fun (r : Nat) => (Except.ok r : Except Unit Nat))).store "k" = some e ∧
      e.data = 5 ∧ e.etag = some "v1" ∧ e.lastModified = none ∧
      e.timestamp = 9 ∧ 2 < e.timestamp := by
  have h := C3_not_modified_refreshes_timestamp 9 natStore1
    "k" () (fun _ _ => TransportResult.failure (some 304))
    (fun (r : Nat) => (Except.ok r : Except Unit Nat))
    (natEntry 5 2 (some "v1") none)
    (by simp [natStore1, lookupStore]) rfl (by decide)
  exact h

theorem fetchCatch_requests (now : Nat) (store : Store τ) (cacheKey : String)
    (cached : Option (CacheEntry τ)) (headers : Headers) (err : FetchError ε) :
    (fetchCatch now store cacheKey cached headers err).requests = [headers] := by
  cases cached with
  | none => rfl
  | some c =>
      unfold fetchCatch
      by_cases h1 : errStatus err = some 304
      · simp [h1]
      · by_cases h2 : now - c.timestamp < CACHE_TTL <;> simp [h1, h2]

theorem fetchWithCache_requests (now : Nat) (store : Store τ) (cacheKey : String)
    (params : π) (transport : π → Headers → TransportResult ρ)
    (transform : ρ → Except ε τ) :
    (fetchWithCache now store cacheKey params transport transform).requests =
      [condHeaders (lookupStore store cacheKey)] := by
  unfold fetchWithCache
  cases h : transport params (condHeaders (lookupStore store cacheKey)) with
  | success body etag lastModified =>
      cases h2 : transform body with
      | ok d => simp [h2]
      | error e => simp [h2, fetchCatch_requests]
  | failure status => simp [fetchCatch_requests]

/-- C4 counterexample: a call whose request succeeds while `transform`
throws, with a cache entry only 998 ms old, does not propagate the error —
it returns the cached payload `5`, because the thrown error reaches the
same catch block as transport failures and the TTL fallback masks it. -/
theorem C4_counterexample_transform_error_masked :
    (fetchWithCache 1000 natStore1 "k" ()
        (fun _ _ => TransportResult.success 7 none none)
        (fun (_ : Nat) => (Except.error () : Except Unit Nat))).result =
      Except.ok 5 ∧
    (Except.ok 5 : Except (FetchError Unit) Nat) ≠
      Except.error (FetchError.transformThrew ()) := by
  constructor
  · rfl
  · intro h
    exact Except.noConfusion h

/-- C4 amended: when the request succeeds but `transform` throws, the cache
entry for the key is never modified (`set` runs only after `transform`
succeeds); the error propagates only when no entry younger than 14 days
exists — when such a fresh entry exists the call instead returns the cached
data, masking the transform error exactly like a transport failure. -/
theorem C4_amended_transform_error
    {τ ρ π ε : Type} (now : Nat) (store : Store τ) (key : String) (params : π)
    (transport : π → Headers → TransportResult ρ) (transform : ρ → Except ε τ)
    (body : ρ) (etag lastModified : Option String) (e : ε)
    (hresp : transport params (condHeaders (lookupStore store key)) =
      TransportResult.success body etag lastModified)
    (htrans : transform body = Except.error e) :
    (fetchWithCache now store key params transport transform).store = store ∧
    (∀ c, lookupStore store key = some c →
        (now - c.timestamp < CACHE_TTL →
          (fetchWithCache now store key params transport transform).result =
            Except.ok c.data) ∧
        (CACHE_TTL ≤ now - c.timestamp →
          (fetchWithCache now store key params transport transform).result =
            Except.error (FetchError.transformThrew e))) ∧
    (lookupStore store key = none →
        (fetchWithCache now store key params transport transform).result =
          Except.error (FetchError.transformThrew e)) := by
  refine ⟨?_, ?_, ?_⟩
  · simp only [fetchWithCache, hresp, htrans]
    cases hl : lookupStore store key with
    | none => simp [fetchCatch]
    | some c =>
        by_cases h2 : now - c.timestamp < CACHE_TTL <;>
          simp [fetchCatch, errStatus, h2]
  · intro c hc
    constructor
    · intro hfresh
      simp only [fetchWithCache, hresp, htrans]
      simp [fetchCatch, hc, errStatus, hfresh]
    · intro hstale
      have hnf : ¬ (now - c.timestamp < CACHE_TTL) := not_lt.mpr hstale
      simp only [fetchWithCache, hresp, htrans]
      simp [fetchCatch, hc, errStatus, hnf]
  · intro hc
    simp only [fetchWithCache, hresp, htrans]
    simp [fetchCatch, hc]

theorem C4_amended_transform_error_witness :
    (fetchWithCache 1000 natStore1 "k" ()
        (fun _ _ => TransportResult.success 7 none none)
        (fun (_ : Nat) => (Except.error () : Except Unit Nat))).store = natStore1 ∧
    (fetchWithCache 1000 natStore1 "k" ()
        (fun _ _ => TransportResult.success 7 none none)
        (fun (_ : Nat) => (Except.error () : Except Unit Nat))).result =
      Except.ok 5 := by
  have h := C4_amended_transform_error 1000 natStore1 "k" ()
    (fun _ _ => TransportResult.success 7 none none)
    (fun (_ : Nat) => (Except.error () : Except Unit Nat))
    7 none none () rfl rfl
  exact ⟨h.1, (h.2.1 (natEntry 5 2 (some "v1") none) (by decide)).1 (by decide)⟩

/-- C5 counterexample: `getDefaultCurrency` with an existing entry issues
zero live requests, even when the entry is far older than the 14-day
staleness ceiling — refuting that every cached resource fetch attempts a
live conditional check. -/
theorem C5_counterexample_no_live_check :
    (getDefaultCurrency 99999999999 currencyStore1
        (TransportResult.failure none)).requestCount = 0 ∧
    CACHE_TTL ≤ 99999999999 - currencyEntry.timestamp := by
  constructor
  · decide
  · decide

/-- C5 amended: every `fetchWithCache` call issues exactly one live
conditional request (with the headers built from the stored validators)
regardless of how old the entry is; but `getDefaultCurrency` issues a live
request only when its key has no entry — with an entry present it returns
the cached value without any live check, at any age. -/
theorem C5_amended_live_check
    {τ ρ π ε : Type} (now : Nat) (store : Store τ) (key : String) (params : π)
    (transport : π → Headers → TransportResult ρ) (transform : ρ → Except ε τ)
    (now2 : Nat) (store2 : Store String) (tm : TransportResult (Option Me)) :
    (fetchWithCache now store key params transport transform).requests =
      [condHeaders (lookupStore store key)] ∧
    (getDefaultCurrency now2 store2 tm).requestCount =
      (if (lookupStore store2 "defaultCurrency").isSome then 0 else 1) := by
  constructor
  · exact fetchWithCache_requests now store key params transport transform
  · cases hl : lookupStore store2 "defaultCurrency" with
    | some c => simp [getDefaultCurrency, hl]
    | none => cases tm <;> simp [getDefaultCurrency, hl]

theorem C5_amended_live_check_witness :
    (fetchWithCache 0 natStore1 "k" ()
        (fun _ _ => TransportResult.failure none)
        (fun (r : Nat) => (Except.ok r : Except Unit Nat))).requests =
      [condHeaders (lookupStore natStore1 "k")] ∧
    (getDefaultCurrency 0 currencyStore1 (TransportResult.failure none)).requestCount =
      (if (lookupStore currencyStore1 "defaultCurrency").isSome then 0 else 1) :=
  C5_amended_live_check 0 natStore1 "k" ()
    (fun _ _ => TransportResult.failure none)
    (fun (r : Nat) => (Except.ok r : Except Unit Nat))
    0 currencyStore1 (TransportResult.failure none)

/-- C6 counterexample: with an empty store and a failing transport (status
500), `getDefaultCurrency` does not surface the transport failure: it
returns the hardcoded `"USD"` fallback, leaving the store unchanged. -/
theorem C6_counterexample_failure_swallowed :
    (getDefaultCurrency 0 ([] : Store String)
        (TransportResult.failure (some 500))).result = "USD" ∧
    (getDefaultCurrency 0 ([] : Store String)
        (TransportResult.failure (some 500))).requestCount = 1 ∧
    (getDefaultCurrency 0 ([] : Store String)
        (TransportResult.failure (some 500))).store = [] := by
  refine ⟨?_, ?_, ?_⟩ <;> decide

/-- C6 amended: for `fetchWithCache`, a fetch failure with no usable
fallback (no entry, or every entry at least 14 days old, and not a
not-modified confirmation of an existing entry) surfaces to the caller
unmodified with the store untouched; however the layer locally recovers
more than the one stated class — a transform failure with a fresh entry is
also recovered by returning cached data — and `getDefaultCurrency` never
surfaces a failure at all, answering the cached value or `"USD"` instead. -/
theorem C6_amended_error_surface
    {τ ρ π ε : Type} (now : Nat) (store : Store τ) (key : String) (params : π)
    (transport : π → Headers → TransportResult ρ) (transform : ρ → Except ε τ) :
    (∀ status, transport params (condHeaders (lookupStore store key)) =
        TransportResult.failure status →
      ¬ (status = some 304 ∧ (lookupStore store key).isSome) →
      (∀ c, lookupStore store key = some c → CACHE_TTL ≤ now - c.timestamp) →
      (fetchWithCache now store key params transport transform).result =
        Except.error (FetchError.transport status) ∧
      (fetchWithCache now store key params transport transform).store = store) ∧
    (∀ body etag lastModified e c,
      transport params (condHeaders (lookupStore store key)) =
        TransportResult.success body etag lastModified →
      transform body = Except.error e →
      lookupStore store key = some c → now - c.timestamp < CACHE_TTL →
      (fetchWithCache now store key params transport transform).result =
        Except.ok c.data) ∧
    (∀ (now2 : Nat) (store2 : Store String) (s : Option Nat),
      (getDefaultCurrency now2 store2 (TransportResult.failure s)).store = store2 ∧
      (getDefaultCurrency now2 store2 (TransportResult.failure s)).result =
        (match lookupStore store2 "defaultCurrency" with
         | some c => c.data
         | none => "USD")) := by
  refine ⟨?_, ?_, ?_⟩
  · intro status hfail hno304 hstale
    cases hl : lookupStore store key with
    | none =>
        simp only [fetchWithCache, hfail]
        simp [fetchCatch, hl]
    | some c =>
        have h304 : ¬ (status = some 304) := by
          intro heq
          exact hno304 ⟨heq, by simp [hl]⟩
        have hnf : ¬ (now - c.timestamp < CACHE_TTL) := not_lt.mpr (hstale c hl)
        simp only [fetchWithCache, hfail]
        simp [fetchCatch, hl, errStatus, h304, hnf]
  · intro body etag lastModified e c hresp htrans hc hfresh
    simp only [fetchWithCache, hresp, htrans]
    simp [fetchCatch, hc, errStatus, hfresh]
  · intro now2 store2 s
    cases hl : lookupStore store2 "defaultCurrency" with
    | some c => simp [getDefaultCurrency, hl]
    | none => simp [getDefaultCurrency, hl]

theorem C6_amended_error_surface_witness :
    (fetchWithCache 0 ([] : Store Nat) "k" ()
        (fun _ _ => TransportResult.failure none)
        (fun (r : Nat) => (Except.ok r : Except Unit Nat))).result =
      Except.error (FetchError.transport none) ∧
    (fetchWithCache 0 ([] : Store Nat) "k" ()
        (fun _ _ => TransportResult.failure none)
        (fun (r : Nat) => (Except.ok r : Except Unit Nat))).store = [] := by
  have h := (C6_amended_error_surface 0 ([] : Store Nat) "k" ()
    (fun _ _ => TransportResult.failure none)
    (fun (r : Nat) => (Except.ok r : Except Unit Nat))).1 none rfl
    (by decide) (by intro c hc; cases hc)
  exact h

theorem lookup_fetchCatch_ne (now : Nat) (store : Store τ) (cacheKey : String)
    (cached : Option (CacheEntry τ)) (headers : Headers) (err : FetchError ε)
    (k : String) (hk : k ≠ cacheKey) :
    lookupStore (fetchCatch now store cacheKey cached headers err).store k =
      lookupStore store k := by
  cases cached with
  | none => rfl
  | some c =>
      unfold fetchCatch
      by_cases h1 : errStatus err = some 304
      · simp [h1, setCache, lookup_setStore_ne store cacheKey _ k hk]
      · by_cases h2 : now - c.timestamp < CACHE_TTL <;> simp [h1, h2]

theorem lookup_fetchWithCache_ne (now : Nat) (store : Store τ) (cacheKey : String)
    (params : π) (transport : π → Headers → TransportResult ρ)
    (transform : ρ → Except ε τ) (k : String) (hk : k ≠ cacheKey) :
    lookupStore (fetchWithCache now store cacheKey params transport transform).store k =
      lookupStore store k := by
  unfold fetchWithCache
  cases h : transport params (condHeaders (lookupStore store cacheKey)) with
  | success body etag lastModified =>
      cases h2 : transform body with
      | ok d => simp [h2, setCache, lookup_setStore_ne store cacheKey _ k hk]
      | error e => simp [h2, lookup_fetchCatch_ne now store cacheKey _ _ _ k hk]
  | failure status => simp [lookup_fetchCatch_ne now store cacheKey _ _ _ k hk]

/-- C7: each cached resource getter reads and writes the fixed per-resource
key, for every value of its query parameters: the single conditional
request is built from the entry stored under the fixed key, and every other
key of the store is left untouched, so the store's key set never depends on
the parameters. -/
theorem C7_fixed_cache_keys
    {δ : Type} (now : Nat)
    (storeC : Store (List Category)) (p : PageParams)
    (tC : PageParams → Headers → TransportResult (List Category))
    (storeT : Store (List Tag)) (q : PageParams)
    (tT : PageParams → Headers → TransportResult (List Tag))
    (storeA : Store (List Account)) (r : PageParams)
    (tA : PageParams → Headers → TransportResult (List Account))
    (storeU : Store (List (Currency δ)))
    (tU : Unit → Headers → TransportResult (List (String × δ))) :
    ((getCategories now storeC p tC).requests =
        [condHeaders (lookupStore storeC "categories")] ∧
      ∀ k, k ≠ "categories" →
        lookupStore (getCategories now storeC p tC).store k = lookupStore storeC k) ∧
    ((getTags now storeT q tT).requests =
        [condHeaders (lookupStore storeT "tags")] ∧
      ∀ k, k ≠ "tags" →
        lookupStore (getTags now storeT q tT).store k = lookupStore storeT k) ∧
    ((getAccounts now storeA r tA).requests =
        [condHeaders (lookupStore storeA "accounts")] ∧
      ∀ k, k ≠ "accounts" →
        lookupStore (getAccounts now storeA r tA).store k = lookupStore storeA k) ∧
    ((getCurrencies now storeU tU).requests =
        [condHeaders (lookupStore storeU "currencies")] ∧
      ∀ k, k ≠ "currencies" →
        lookupStore (getCurrencies now storeU tU).store k = lookupStore storeU k) := by
  refine ⟨⟨?_, ?_⟩, ⟨?_, ?_⟩, ⟨?_, ?_⟩, ?_, ?_⟩
  · exact fetchWithCache_requests now storeC "categories" p tC _
  · intro k hk
    exact lookup_fetchWithCache_ne now storeC "categories" p tC _ k hk
  · exact fetchWithCache_requests now storeT "tags" q tT _
  · intro k hk
    exact lookup_fetchWithCache_ne now storeT "tags" q tT _ k hk
  · exact fetchWithCache_requests now storeA "accounts" r tA _
  · intro k hk
    exact lookup_fetchWithCache_ne now storeA "accounts" r tA _ k hk
  · exact fetchWithCache_requests now storeU "currencies" () tU _
  · intro k hk
    exact lookup_fetchWithCache_ne now storeU "currencies" () tU _ k hk

theorem C7_fixed_cache_keys_witness :
    (getCategories 0 ([] : Store (List Category)) (PageParams.mk none (some 500))
        (fun _ _ => TransportResult.failure none)).requests =
      [condHeaders (lookupStore ([] : Store (List Category)) "categories")] ∧
    lookupStore (getCategories 0 ([] : Store (List Category))
        (PageParams.mk none (some 500))
        (fun _ _ => TransportResult.failure none)).store "tags" =
      lookupStore ([] : Store (List Category)) "tags" := by
  have h := C7_fixed_cache_keys (δ := Unit) 0
    ([] : Store (List Category)) (PageParams.mk none (some 500))
    (fun _ _ => TransportResult.failure none)
    ([] : Store (List Tag)) (PageParams.mk none none)
    (fun _ _ => TransportResult.failure none)
    ([] : Store (List Account)) (PageParams.mk none none)
    (fun _ _ => TransportResult.failure none)
    ([] : Store (List (Currency Unit)))
    (fun _ _ => TransportResult.failure none)
  exact ⟨h.1.1, h.1.2 "tags" (by decide)⟩

theorem fetchCatch_store_cases (now : Nat) (store : Store τ) (cacheKey : String)
    (cached : Option (CacheEntry τ)) (headers : Headers) (err : FetchError ε) :
    (fetchCatch now store cacheKey cached headers err).store = store ∨
    ∃ e, (fetchCatch now store cacheKey cached headers err).store =
      setStore store cacheKey e := by
  cases cached with
  | none => exact Or.inl rfl
  | some c =>
      unfold fetchCatch
      by_cases h1 : errStatus err = some 304
      · refine Or.inr ⟨CacheEntry.mk c.data now c.etag c.lastModified, ?_⟩
        simp [h1, setCache]
      · by_cases h2 : now - c.timestamp < CACHE_TTL <;> simp [h1, h2]

theorem fetchWithCache_store_cases (now : Nat) (store : Store τ) (cacheKey : String)
    (params : π) (transport : π → Headers → TransportResult ρ)
    (transform : ρ → Except ε τ) :
    (fetchWithCache now store cacheKey params transport transform).store = store ∨
    ∃ e, (fetchWithCache now store cacheKey params transport transform).store =
      setStore store cacheKey e := by
  unfold fetchWithCache
  cases h : transport params (condHeaders (lookupStore store cacheKey)) with
  | success body etag lastModified =>
      cases h2 : transform body with
      | ok d =>
          refine Or.inr ⟨CacheEntry.mk d now etag lastModified, ?_⟩
          simp [h2, setCache]
      | error e =>
          simpa [h2] using fetchCatch_store_cases now store cacheKey _ _
            (FetchError.transformThrew e)
  | failure status =>
      simpa using fetchCatch_store_cases now store cacheKey _ _
        (FetchError.transport status)

/-- C8: after construction no operation removes a cache store entry: every
key present before a `fetchWithCache` or `getDefaultCurrency` call (the
only post-construction operations touching the store) is still present
afterwards, entries being at most overwritten in place; and the
constructor-time store — the only place `clear` runs — is empty whether or
not the force-refresh flag is set. -/
theorem C8_no_entry_removed :
    (∀ (τ ρ π ε : Type) (now : Nat) (store : Store τ) (key : String) (params : π)
        (transport : π → Headers → TransportResult ρ) (transform : ρ → Except ε τ)
        (k : String), (lookupStore store k).isSome →
        (lookupStore
          (fetchWithCache now store key params transport transform).store k).isSome) ∧
    (∀ (now : Nat) (store : Store String) (tm : TransportResult (Option Me))
        (k : String), (lookupStore store k).isSome →
        (lookupStore (getDefaultCurrency now store tm).store k).isSome) ∧
    (∀ (σ : Type) (f : Bool), (initStore f : Store σ) = []) := by
  refine ⟨?_, ?_, ?_⟩
  · intro τ ρ π ε now store key params transport transform k hk
    rcases fetchWithCache_store_cases now store key params transport transform with
      h | ⟨e, h⟩
    · rw [h]
      exact hk
    · rw [h]
      exact isSome_lookup_setStore store key e k hk
  · intro now store tm k hk
    unfold getDefaultCurrency
    cases hl : lookupStore store "defaultCurrency" with
    | some c => exact hk
    | none =>
        cases tm with
        | success me etag lastModified =>
            simpa [setCache] using
              isSome_lookup_setStore store "defaultCurrency" _ k hk
        | failure s => exact hk
  · intro σ f
    cases f <;> rfl

theorem C8_no_entry_removed_witness :
    (lookupStore (fetchWithCache 0 natStore1 "k" ()
        (fun _ _ => TransportResult.failure none)
        (fun (r : Nat) => (Except.ok r : Except Unit Nat))).store "k").isSome ∧
    (lookupStore (getDefaultCurrency 0 currencyStore1
        (TransportResult.failure none)).store "defaultCurrency").isSome := by
  have h := C8_no_entry_removed
  exact ⟨h.1 Nat Nat Unit Unit 0 natStore1 "k" ()
      (fun _ _ => TransportResult.failure none)
      (fun (r : Nat) => (Except.ok r : Except Unit Nat)) "k" (by decide),
    h.2.1 0 currencyStore1 (TransportResult.failure none) "defaultCurrency" (by decide)⟩

/-- C9: on the degraded-mode fallback path (failure other than not-modified
with an entry younger than 14 days), the call returns the cached data and
performs no write whatsoever: the store afterwards is the store before, so
the entry's data, validators and `fetchedAt` are untouched and repeated
failures never move the 14-day window. -/
theorem C9_degraded_fallback_no_write
    {τ ρ π ε : Type} (now : Nat) (store : Store τ) (key : String) (params : π)
    (transport : π → Headers → TransportResult ρ) (transform : ρ → Except ε τ)
    (status : Option Nat) (c : CacheEntry τ)
    (hfail : transport params (condHeaders (lookupStore store key)) =
      TransportResult.failure status)
    (h304 : status ≠ some 304)
    (hc : lookupStore store key = some c)
    (hfresh : now - c.timestamp < CACHE_TTL) :
    (fetchWithCache now store key params transport transform).result =
      Except.ok c.data ∧
    (fetchWithCache now store key params transport transform).store = store := by
  constructor <;>
    · simp only [fetchWithCache, hfail]
      simp [fetchCatch, hc, errStatus, h304, hfresh]

theorem C9_degraded_fallback_no_write_witness :
    (fetchWithCache 1000 natStore1 "k" ()
        (fun _ _ => TransportResult.failure (some 500))
        (fun (r : Nat) => (Except.ok r : Except Unit Nat))).result =
      Except.ok 5 ∧
    (fetchWithCache 1000 natStore1 "k" ()
        (fun _ _ => TransportResult.failure (some 500))
        (fun (r : Nat) => (Except.ok r : Except Unit Nat))).store = natStore1 :=
  C9_degraded_fallback_no_write 1000 natStore1 "k" ()
    (fun _ _ => TransportResult.failure (some 500))
    (fun (r : Nat) => (Except.ok r : Except Unit Nat))
    (some 500) (natEntry 5 2 (some "v1") none) rfl (by decide) (by decide) (by decide)

/-- C10: a not-modified response for a key with no store entry is not
treated as success: both catch guards fail and the call propagates the
response as an error, with the store unchanged. -/
theorem C10_not_modified_without_entry_propagates
    {τ ρ π ε : Type} (now : Nat) (store : Store τ) (key : String) (params : π)
    (transport : π → Headers → TransportResult ρ) (transform : ρ → Except ε τ)
    (hnone : lookupStore store key = none)
    (hfail : transport params (condHeaders (lookupStore store key)) =
      TransportResult.failure (some 304)) :
    (fetchWithCache now store key params transport transform).result =
      Except.error (FetchError.transport (some 304)) ∧
    (fetchWithCache now store key params transport transform).store = store := by
  constructor <;>
    · simp only [fetchWithCache, hfail]
      simp [fetchCatch, hnone]

theorem C10_not_modified_without_entry_propagates_witness :
    (fetchWithCache 0 ([] : Store Nat) "k" ()
        (fun _ _ => TransportResult.failure (some 304))
        (fun (r : Nat) => (Except.ok r : Except Unit Nat))).result =
      Except.error (FetchError.transport (some 304)) ∧
    (fetchWithCache 0 ([] : Store Nat) "k" ()
        (fun _ _ => TransportResult.failure (some 304))
        (fun (r : Nat) => (Except.ok r : Except Unit Nat))).store = [] :=
  C10_not_modified_without_entry_propagates 0 ([] : Store Nat) "k" ()
    (fun _ _ => TransportResult.failure (some 304))
    (fun (r : Nat) => (Except.ok r : Except Unit Nat)) rfl rfl

end QuickToshl
